import Mathlib

/-!
Verification of the WestBay multi-agent report-generation orchestrator.

The development shallowly embeds the orchestration core of the repository:

* `src/backend/orchestration/state.py` — the run-state schema, its
  field-level reducers (`take_last_status`, `take_last_agent`,
  `merge_completion_status`, list append) and the `StateManager` registry;
* `src/backend/orchestration/graph_builder.py` — the LangGraph workflow:
  node functions, conditional routing and the completion gate;
* `src/backend/agents/specialized/lead_researcher_decision.py` — the
  staffing decision engine `analyze_requirements`;
* `src/backend/agents/specialized/cost_calculator.py` — `_calculate_cost`;
* `src/backend/agents/planner.py` — `create_plan` and its fallback plan.

Python dictionaries are embedded as association lists with Python's
insertion-order update semantics; Python `None` becomes `Option.none`.
The LLM-backed agents themselves are black boxes (out of scope per the
spec); their observable behaviour at the orchestration boundary — whether
an `execute` call raises, and which optional roles the staffing decision
requests — is captured by an environment record quantified over in the
theorems.  Timestamps, log output and the free-text payload contents of
agent results are not modelled: no claim depends on them.
-/

namespace WestBay

/-! ## Python dict embedding

A Python `dict` is an insertion-ordered association list without duplicate
keys.  `dictInsert` is `d[k] = v` (replace in place if the key is present,
else append); `dictGet?` is `d.get(k)`; `dictUpdate` is `left.copy()`
followed by `merged.update(right)` as in `merge_completion_status`. -/

def dictGet? {α : Type} : List (String × α) → String → Option α
  | [], _ => none
  | (k', v) :: rest, k => if k' = k then some v else dictGet? rest k

def dictGetD {α : Type} (m : List (String × α)) (k : String) (d : α) : α :=
  (dictGet? m k).getD d

def dictInsert {α : Type} : List (String × α) → String → α → List (String × α)
  | [], k, v => [(k, v)]
  | (k', v') :: rest, k, v =>
      if k' = k then (k', v) :: rest else (k', v') :: dictInsert rest k v

def dictUpdate {α : Type} (left right : List (String × α)) : List (String × α) :=
  right.foldl (fun acc kv => dictInsert acc kv.1 kv.2) left

def dictKeys {α : Type} (m : List (String × α)) : List String :=
  m.map Prod.fst

/-- Completion map: Python `Dict[str, bool]` (role name → completed flag). -/
abbrev CMap := List (String × Bool)

/-! ## Reducers from `orchestration/state.py` -/

/-- Python truthiness of a `str` (`if right:`): non-empty. -/
def pyTruthyStr (s : String) : Bool := s ≠ ""

/-- Python `str.isspace` classification for the whitespace stripped by
`str.strip()`. -/
def pyIsSpace (c : Char) : Bool :=
  c = ' ' ∨ c = '\t' ∨ c = '\n' ∨ c = '\r' ∨ c = '\x0b' ∨ c = '\x0c'

/-- Python `s.strip()`. -/
def pyStrip (s : String) : String :=
  String.mk (((s.data.dropWhile pyIsSpace).reverse.dropWhile pyIsSpace).reverse)

/-- `take_last_status` (state.py:16-24): prefer the right value when it is
non-empty and not all whitespace, else the left under the same test, else
the right. -/
def take_last_status (left right : String) : String :=
  if pyTruthyStr right ∧ pyTruthyStr (pyStrip right) then right
  else if pyTruthyStr left ∧ pyTruthyStr (pyStrip left) then left
  else right

/-- `take_last_agent` (state.py:27-35): Python `Optional[str]` truthiness —
`None` and `""` are falsy. -/
def pyTruthyOptStr : Option String → Bool
  | none => false
  | some s => pyTruthyStr s

def take_last_agent (left right : Option String) : Option String :=
  if pyTruthyOptStr right then right
  else if pyTruthyOptStr left then left
  else right

/-- `merge_completion_status` (state.py:38-57): key-wise merge of two
optional completion maps, the right operand winning per key. -/
def merge_completion_status : Option CMap → Option CMap → Option CMap
  | none, none => none
  | none, some r => some r
  | some l, none => some l
  | some l, some r => some (dictUpdate l r)

/-! ## Run State (`AgentState`, state.py:60-107)

Channels carry either a "last value" (overwritten on each write), one of the
three reducers above, or the `operator.add` list-append reducer.  Payload
contents produced by the black-box agents (scraped data, generated text,
file paths, timestamps, session ids) are abstracted to `Unit`: the claims
only ever ask whether such a field was written.  Error records carry only
the `agent` field of the Python error dict (`message`/`timestamp`/`details`
are free text and wall-clock time).  One crucial Python detail is kept:
`create_initial_state` writes EVERY key, so a key holding `None` is
*present* in the state dict and `state.get(key, default)` returns `None`,
not the default. -/

structure WState where
  research_plan : Option Unit
  cost_estimate : Option Unit
  web_research_data : Option Unit
  api_research_data : Option Unit
  analysis_results : Option Unit
  insights : Option Unit
  visualizations : Option Unit
  report_structure : Option Unit
  llm_generated_content : Option Unit
  report_content : Option Unit
  report_path : Option Unit
  pdf_path : Option Unit
  citations : List Unit
  status : String
  current_agent : Option String
  completed_tasks : List String
  errors : List String
  agent_tasks : Option Unit
  agent_completion_status : Option CMap
  required_agents : Option (List String)
  deriving DecidableEq, Repr

/-- A partial state update as returned by a graph node: `none` / `[]`-free
`Option` fields mean "key absent from the returned dict". -/
structure Update where
  research_plan : Option Unit := none
  cost_estimate : Option Unit := none
  web_research_data : Option Unit := none
  api_research_data : Option Unit := none
  analysis_results : Option Unit := none
  insights : Option Unit := none
  visualizations : Option Unit := none
  report_structure : Option Unit := none
  llm_generated_content : Option Unit := none
  report_content : Option Unit := none
  report_path : Option Unit := none
  pdf_path : Option Unit := none
  citations : Option (List Unit) := none
  status : Option String := none
  current_agent : Option String := none
  completed_tasks : Option (List String) := none
  errors : Option (List String) := none
  agent_tasks : Option Unit := none
  agent_completion_status : Option CMap := none
  required_agents : Option (List String) := none
  deriving DecidableEq, Repr

/-- Channel-wise merge of a node's partial update into the state, applying
the per-field reducers declared in `AgentState` (state.py:60-107):
`operator.add` for `citations`/`completed_tasks`/`errors`,
`take_last_status` for `status`, `take_last_agent` for `current_agent`,
`merge_completion_status` for `agent_completion_status`, and last-value
overwrite for everything else. -/
def applyUpdate (s : WState) (u : Update) : WState where
  research_plan := match u.research_plan with | none => s.research_plan | some v => some v
  cost_estimate := match u.cost_estimate with | none => s.cost_estimate | some v => some v
  web_research_data := match u.web_research_data with | none => s.web_research_data | some v => some v
  api_research_data := match u.api_research_data with | none => s.api_research_data | some v => some v
  analysis_results := match u.analysis_results with | none => s.analysis_results | some v => some v
  insights := match u.insights with | none => s.insights | some v => some v
  visualizations := match u.visualizations with | none => s.visualizations | some v => some v
  report_structure := match u.report_structure with | none => s.report_structure | some v => some v
  llm_generated_content := match u.llm_generated_content with | none => s.llm_generated_content | some v => some v
  report_content := match u.report_content with | none => s.report_content | some v => some v
  report_path := match u.report_path with | none => s.report_path | some v => some v
  pdf_path := match u.pdf_path with | none => s.pdf_path | some v => some v
  citations := match u.citations with | none => s.citations | some l => s.citations ++ l
  status := match u.status with | none => s.status | some v => take_last_status s.status v
  current_agent := match u.current_agent with | none => s.current_agent | some v => take_last_agent s.current_agent (some v)
  completed_tasks := match u.completed_tasks with | none => s.completed_tasks | some l => s.completed_tasks ++ l
  errors := match u.errors with | none => s.errors | some l => s.errors ++ l
  agent_tasks := match u.agent_tasks with | none => s.agent_tasks | some v => some v
  agent_completion_status := match u.agent_completion_status with
    | none => s.agent_completion_status
    | some m => merge_completion_status s.agent_completion_status (some m)
  required_agents := match u.required_agents with | none => s.required_agents | some v => some v

/-- `create_initial_state` (state.py:110-170). -/
def initialState : WState where
  research_plan := none
  cost_estimate := none
  web_research_data := none
  api_research_data := none
  analysis_results := none
  insights := none
  visualizations := none
  report_structure := none
  llm_generated_content := none
  report_content := none
  report_path := none
  pdf_path := none
  citations := []
  status := "initialized"
  current_agent := none
  completed_tasks := []
  errors := []
  agent_tasks := none
  agent_completion_status := none
  required_agents := none

/-! ## Environment: the black-box agent boundary

The LLM-backed agents are out of scope for the spec; at the graph boundary
only two things about them are observable per run: whether each `execute`
call raises, and what the lead researcher's staffing decision
(`research_strategy["agent_breakdown"]`) requests.  The `xStaffed` flags
model the `agent_breakdown.get(role, 0) > 0` tests of
`_lead_researcher_node` (graph_builder.py:203-208); `apiRequestsEmpty`
models `report_requirements.get("api_requests", [])` being empty
(graph_builder.py:425-439).  Requirements are fixed for a whole session, so
these are constants of a run. -/

structure Env where
  costRaises : Bool
  leadRaises : Bool
  synthRaises : Bool
  dcRaises : Bool
  apiRaises : Bool
  analystRaises : Bool
  llmRaises : Bool
  writerRaises : Bool
  dcStaffed : Bool
  apiStaffed : Bool
  analystStaffed : Bool
  apiRequestsEmpty : Bool
  deriving DecidableEq, Repr

/-- The error update every node's `except` handler returns:
`{"status": "error", "errors": [{"agent": name, ...}]}`. -/
def errorUpdate (agent : String) : Update :=
  { status := some "error", errors := some [agent] }

/-- `required_agents` as computed by `_lead_researcher_node`
(graph_builder.py:201-211): optional roles whose staffed count is positive,
in fixed order, then always `straight_through_llm`. -/
def requiredAgents (env : Env) : List String :=
  (if env.dcStaffed then ["data_collector"] else []) ++
  (if env.apiStaffed then ["api_researcher"] else []) ++
  (if env.analystStaffed then ["analyst"] else []) ++
  ["straight_through_llm"]

/-! ## Graph nodes (graph_builder.py:146-718)

Each node is total unless a statement OUTSIDE its `try` (or inside its
`except` handler) can raise; those nodes return `Option Update` with `none`
standing for an exception escaping the node and aborting the graph
invocation. -/

/-- `_cost_calculator_node` (graph_builder.py:146-171). -/
def costCalculatorNode (env : Env) (_s : WState) : Update :=
  if env.costRaises then errorUpdate "cost_calculator"
  else
    { cost_estimate := some ()
      status := some "cost_estimated"
      current_agent := some "cost_calculator"
      completed_tasks := some ["cost_estimation"] }

/-- `_lead_researcher_node` (graph_builder.py:173-239): on success, records
the task distribution, the required-agent list and an all-`False`
completion map for it; on failure, only an error update. -/
def leadResearcherNode (env : Env) (_s : WState) : Update :=
  if env.leadRaises then errorUpdate "lead_researcher"
  else
    { research_plan := some ()
      status := some "strategy_created"
      current_agent := some "lead_researcher"
      completed_tasks := some ["research_strategy"]
      agent_tasks := some ()
      required_agents := some (requiredAgents env)
      agent_completion_status := some ((requiredAgents env).map (fun a => (a, false))) }

/-- `_synthesizer_node` (graph_builder.py:295-346). -/
def synthesizerNode (env : Env) (_s : WState) : Update :=
  if env.synthRaises then errorUpdate "synthesizer"
  else
    { report_structure := some ()
      status := some "structure_created"
      current_agent := some "synthesizer"
      completed_tasks := some ["report_structure_synthesis"] }

/-- `_data_collector_node` (graph_builder.py:348-407).  Inside the `try`:
`state.get("agent_tasks", {})` returns `None` when the lead researcher
failed (the key is present), so the subsequent `.get` raises and is caught;
likewise `.copy()` on a `None` completion map.  The agent's own task
raising is `env.dcRaises`. -/
def dataCollectorNode (env : Env) (s : WState) : Update :=
  match s.agent_tasks with
  | none => errorUpdate "data_collector"
  | some _ =>
    if env.dcRaises then errorUpdate "data_collector"
    else
      match s.agent_completion_status with
      | none => errorUpdate "data_collector"
      | some m =>
        { web_research_data := some ()
          citations := some []
          status := some "web_research_complete"
          current_agent := some "data_collector"
          completed_tasks := some ["web_data_collection"]
          agent_completion_status := some (dictInsert m "data_collector" true) }

/-- `_api_researcher_node` (graph_builder.py:409-479): when no API requests
are specified the node is skipped but still marked complete. -/
def apiResearcherNode (env : Env) (s : WState) : Update :=
  match s.agent_tasks with
  | none => errorUpdate "api_researcher"
  | some _ =>
    if env.apiRequestsEmpty then
      match s.agent_completion_status with
      | none => errorUpdate "api_researcher"
      | some m =>
        { api_research_data := some ()
          status := some "api_research_skipped"
          current_agent := some "api_researcher"
          completed_tasks := some ["api_data_collection"]
          agent_completion_status := some (dictInsert m "api_researcher" true) }
    else if env.apiRaises then errorUpdate "api_researcher"
    else
      match s.agent_completion_status with
      | none => errorUpdate "api_researcher"
      | some m =>
        { api_research_data := some ()
          citations := some []
          status := some "api_research_complete"
          current_agent := some "api_researcher"
          completed_tasks := some ["api_data_collection"]
          agent_completion_status := some (dictInsert m "api_researcher" true) }

/-- `_analyst_node` (graph_builder.py:481-550). -/
def analystNode (env : Env) (s : WState) : Update :=
  match s.agent_tasks with
  | none => errorUpdate "analyst"
  | some _ =>
    if env.analystRaises then errorUpdate "analyst"
    else
      match s.agent_completion_status with
      | none => errorUpdate "analyst"
      | some m =>
        { analysis_results := some ()
          insights := some ()
          visualizations := some ()
          status := some "analysis_complete"
          current_agent := some "analyst"
          completed_tasks := some ["data_analysis"]
          agent_completion_status := some (dictInsert m "analyst" true) }

/-- `_straight_through_llm_node` (graph_builder.py:552-626): a missing
report structure raises `ValueError` inside the `try`; the `except` handler
STILL marks the role complete ("Even on error, mark as complete to not
block workflow") — but the handler itself calls `.copy()` on the completion
map, which raises out of the node if the map is `None`. -/
def straightThroughLLMNode (env : Env) (s : WState) : Option Update :=
  match s.report_structure with
  | none =>
    match s.agent_completion_status with
    | none => none
    | some m =>
      some { status := some "error"
             agent_completion_status := some (dictInsert m "straight_through_llm" true)
             errors := some ["straight_through_llm"] }
  | some _ =>
    if env.llmRaises then
      match s.agent_completion_status with
      | none => none
      | some m =>
        some { status := some "error"
               agent_completion_status := some (dictInsert m "straight_through_llm" true)
               errors := some ["straight_through_llm"] }
    else
      match s.agent_completion_status with
      | none => none
      | some m =>
        some { llm_generated_content := some ()
               status := some "llm_content_complete"
               current_agent := some "straight_through_llm"
               completed_tasks := some ["llm_content_generation"]
               agent_completion_status := some (dictInsert m "straight_through_llm" true) }

/-- `_check_completion_node` (graph_builder.py:765-792): pure logging, no
`try` block — iterating a `None` required list, or `.get` on a `None`
completion map with a non-empty required list, raises out of the node.
Otherwise it returns the empty update. -/
def checkCompletionNode (s : WState) : Option Update :=
  match s.required_agents with
  | none => none
  | some req =>
    match s.agent_completion_status with
    | some _ => some {}
    | none =>
      match req with
      | [] => some {}
      | _ :: _ => none

/-- `_writer_node` (graph_builder.py:628-718): the completion logging at
the top is outside the `try` and can raise like the check node; otherwise
the writer produces the report or an error update. -/
def writerNode (env : Env) (s : WState) : Option Update :=
  match s.required_agents with
  | none => none
  | some req =>
    match s.agent_completion_status, req with
    | none, _ :: _ => none
    | _, _ =>
      if env.writerRaises then some (errorUpdate "writer")
      else
        some { report_content := some ()
               report_path := some ()
               pdf_path := some ()
               status := some "completed"
               current_agent := some "writer"
               completed_tasks := some ["report_writing"] }

/-! ## Conditional routing (graph_builder.py:720-857) -/

/-- The Python condition `agent in required_agents and not
completion_status.get(agent, False)` with its lazy evaluation: `none`
models the `TypeError`/`AttributeError` raised when the respective state
value is `None` (the `.get` defaults never apply — the keys are present). -/
def wantsNext (s : WState) (agent : String) : Option Bool :=
  match s.required_agents with
  | none => none
  | some req =>
    if agent ∈ req then
      match s.agent_completion_status with
      | none => none
      | some m => some (!dictGetD m agent false)
    else some false

inductive RouteDC | to_api | to_analyst | to_llm | to_check
  deriving DecidableEq, Repr

/-- `_route_after_data_collector` (graph_builder.py:720-736). -/
def routeAfterDataCollector (s : WState) : Option RouteDC := do
  if ← wantsNext s "api_researcher" then pure RouteDC.to_api
  else if ← wantsNext s "analyst" then pure RouteDC.to_analyst
  else if ← wantsNext s "straight_through_llm" then pure RouteDC.to_llm
  else pure RouteDC.to_check

inductive RouteAPI | to_analyst | to_llm | to_check
  deriving DecidableEq, Repr

/-- `_route_after_api_researcher` (graph_builder.py:738-751). -/
def routeAfterAPIResearcher (s : WState) : Option RouteAPI := do
  if ← wantsNext s "analyst" then pure RouteAPI.to_analyst
  else if ← wantsNext s "straight_through_llm" then pure RouteAPI.to_llm
  else pure RouteAPI.to_check

inductive RouteAnalyst | to_llm | to_check
  deriving DecidableEq, Repr

/-- `_route_after_analyst` (graph_builder.py:753-763). -/
def routeAfterAnalyst (s : WState) : Option RouteAnalyst := do
  if ← wantsNext s "straight_through_llm" then pure RouteAnalyst.to_llm
  else pure RouteAnalyst.to_check

inductive RouteCC | all_complete | incomplete
  deriving DecidableEq, Repr

/-- `_route_after_completion_check` (graph_builder.py:794-829):
`all(completion_status.get(agent, False) for agent in required_agents)`.
With an empty required list the generator never touches the map, so `all`
is vacuously true even for a `None` map. -/
def routeAfterCompletionCheck (s : WState) : Option RouteCC :=
  match s.required_agents with
  | none => none
  | some req =>
    match s.agent_completion_status with
    | some m =>
      some (if req.all (fun a => dictGetD m a false) then RouteCC.all_complete
            else RouteCC.incomplete)
    | none =>
      match req with
      | [] => some RouteCC.all_complete
      | _ :: _ => none

inductive RouteCost | proceed | high_cost
  deriving DecidableEq, Repr

/-- `_route_after_cost_estimate` (graph_builder.py:832-857): a `high_cost`
edge exists in the graph, but the function logs a warning for a red budget
and unconditionally returns `"proceed"`. -/
def routeAfterCostEstimate (_s : WState) : RouteCost := RouteCost.proceed

/-! ## The compiled graph (`_build_graph`, graph_builder.py:50-143) -/

inductive Node
  | cost_calculator | lead_researcher | synthesizer | data_collector
  | api_researcher | analyst | straight_through_llm | check_completion
  | writer | terminal | aborted
  deriving DecidableEq, Repr

/-- One LangGraph superstep: run the current node, merge its update, then
follow the (conditional) edge out of it.  `terminal` is `END`; `aborted`
is an exception escaping a node or a routing function (the graph invocation
raises and the background task records a session-level error). -/
def step (env : Env) : Node × WState → Node × WState
  | (Node.cost_calculator, s) =>
    let s' := applyUpdate s (costCalculatorNode env s)
    match routeAfterCostEstimate s' with
    | RouteCost.proceed => (Node.lead_researcher, s')
    | RouteCost.high_cost => (Node.terminal, s')
  | (Node.lead_researcher, s) => (Node.synthesizer, applyUpdate s (leadResearcherNode env s))
  | (Node.synthesizer, s) => (Node.data_collector, applyUpdate s (synthesizerNode env s))
  | (Node.data_collector, s) =>
    let s' := applyUpdate s (dataCollectorNode env s)
    match routeAfterDataCollector s' with
    | none => (Node.aborted, s')
    | some RouteDC.to_api => (Node.api_researcher, s')
    | some RouteDC.to_analyst => (Node.analyst, s')
    | some RouteDC.to_llm => (Node.straight_through_llm, s')
    | some RouteDC.to_check => (Node.check_completion, s')
  | (Node.api_researcher, s) =>
    let s' := applyUpdate s (apiResearcherNode env s)
    match routeAfterAPIResearcher s' with
    | none => (Node.aborted, s')
    | some RouteAPI.to_analyst => (Node.analyst, s')
    | some RouteAPI.to_llm => (Node.straight_through_llm, s')
    | some RouteAPI.to_check => (Node.check_completion, s')
  | (Node.analyst, s) =>
    let s' := applyUpdate s (analystNode env s)
    match routeAfterAnalyst s' with
    | none => (Node.aborted, s')
    | some RouteAnalyst.to_llm => (Node.straight_through_llm, s')
    | some RouteAnalyst.to_check => (Node.check_completion, s')
  | (Node.straight_through_llm, s) =>
    match straightThroughLLMNode env s with
    | none => (Node.aborted, s)
    | some u => (Node.check_completion, applyUpdate s u)
  | (Node.check_completion, s) =>
    match checkCompletionNode s with
    | none => (Node.aborted, s)
    | some u =>
      let s' := applyUpdate s u
      match routeAfterCompletionCheck s' with
      | none => (Node.aborted, s')
      | some RouteCC.all_complete => (Node.writer, s')
      | some RouteCC.incomplete => (Node.terminal, s')
  | (Node.writer, s) =>
    match writerNode env s with
    | none => (Node.aborted, s)
    | some u => (Node.terminal, applyUpdate s u)
  | (Node.terminal, s) => (Node.terminal, s)
  | (Node.aborted, s) => (Node.aborted, s)

/-- The run after `n` supersteps, starting as `graph.invoke(initial_state)`
does at the `cost_calculator` entry edge. -/
def execN (env : Env) : Nat → Node × WState
  | 0 => (Node.cost_calculator, initialState)
  | n + 1 => step env (execN env n)

/-- The deepest path through the graph visits 10 nodes, so 12 supersteps
always land on an absorbing `terminal`/`aborted` configuration. -/
def runFinal (env : Env) : Node × WState := execN env 12

/-- Reachable configurations of the workflow graph. -/
inductive Reaches (env : Env) : Node × WState → Prop
  | init : Reaches env (Node.cost_calculator, initialState)
  | next {c : Node × WState} : Reaches env c → Reaches env (step env c)

/-! ## Session Registry (`StateManager`, state.py:271-400)

`update_state` applies a plain Python `dict.update` to the stored session
record: every key present in `updates` REPLACES the stored value wholesale.
No field-level reducer is involved (contrast with `applyUpdate` above,
which is what the graph's channels apply). -/

/-- The effect of `self.states[session_id].update(updates)` on one stored
record (`updated_at` bookkeeping omitted — wall-clock time). -/
def pyStateUpdate (s : WState) (u : Update) : WState where
  research_plan := match u.research_plan with | none => s.research_plan | some v => some v
  cost_estimate := match u.cost_estimate with | none => s.cost_estimate | some v => some v
  web_research_data := match u.web_research_data with | none => s.web_research_data | some v => some v
  api_research_data := match u.api_research_data with | none => s.api_research_data | some v => some v
  analysis_results := match u.analysis_results with | none => s.analysis_results | some v => some v
  insights := match u.insights with | none => s.insights | some v => some v
  visualizations := match u.visualizations with | none => s.visualizations | some v => some v
  report_structure := match u.report_structure with | none => s.report_structure | some v => some v
  llm_generated_content := match u.llm_generated_content with | none => s.llm_generated_content | some v => some v
  report_content := match u.report_content with | none => s.report_content | some v => some v
  report_path := match u.report_path with | none => s.report_path | some v => some v
  pdf_path := match u.pdf_path with | none => s.pdf_path | some v => some v
  citations := match u.citations with | none => s.citations | some l => l
  status := match u.status with | none => s.status | some v => v
  current_agent := match u.current_agent with | none => s.current_agent | some v => some v
  completed_tasks := match u.completed_tasks with | none => s.completed_tasks | some l => l
  errors := match u.errors with | none => s.errors | some l => l
  agent_tasks := match u.agent_tasks with | none => s.agent_tasks | some v => some v
  agent_completion_status := match u.agent_completion_status with
    | none => s.agent_completion_status
    | some m => some m
  required_agents := match u.required_agents with | none => s.required_agents | some v => some v

/-- `StateManager.update_state` (state.py:352-364): update the stored
record for `session_id` in place if it exists, else do nothing. -/
def StateManager.update_state (states : List (String × WState)) (session_id : String)
    (u : Update) : List (String × WState) :=
  match dictGet? states session_id with
  | none => states
  | some s => dictInsert states session_id (pyStateUpdate s u)

/-! ## Decision Engine (`LeadResearcherDecisionEngine.analyze_requirements`,
lead_researcher_decision.py:51-240)

The complexity multipliers 1.0 / 1.5 / 2.0 are kept in tenths so the whole
computation stays in `Nat`; `int(5 / multiplier)` truncates 5.0, 3.333…,
2.5 to 5, 3, 2, which coincides with `50 / mult10` for every representable
multiplier (including the 1.5 default for unknown complexity strings).
The human-readable `reasoning` strings and per-allocation subtask texts are
log/annotation payload and are not modelled. -/

/-- Python `s.lower()` (code-point-wise). -/
def pyToLower (s : String) : String := String.mk (s.data.map Char.toLower)

/-- Python `s[:n]` (code-point slicing). -/
def pyTake (s : String) (n : Nat) : String := String.mk (s.data.take n)

/-- Python `needle in hay` substring test. -/
def strContainsSub (hay needle : String) : Bool :=
  hay.data.tails.any (fun t => needle.data.isPrefixOf t)

def complexityMultipliers10 : List (String × Nat) :=
  [("simple", 10), ("medium", 15), ("complex", 20)]

def apiKeywords : List String :=
  ["market", "financial", "crypto", "stock", "economy", "technology"]

structure ResearchStrategy where
  complexity_level : String
  total_agents_needed : Nat
  data_collectors : Nat
  api_researchers : Nat
  analysts : Nat
  estimated_sources_per_collector : Nat
  estimated_apis_per_researcher : Nat
  agent_allocations : List (String × Nat)
  deriving DecidableEq, Repr

def analyze_requirements (topic detailed_requirements : String)
    (page_count source_count : Nat) (complexity : String)
    (include_analysis _include_visualizations : Bool) : ResearchStrategy :=
  let mult10 := dictGetD complexityMultipliers10 (pyToLower complexity) 15
  let sources_per_collector := max 3 (50 / mult10)
  let data_collectors := max 1 ((source_count + sources_per_collector - 1) / sources_per_collector)
  let api_researchers :=
    if pyToLower complexity = "medium" ∨ pyToLower complexity = "complex" then
      if apiKeywords.any (fun kw =>
          strContainsSub (pyToLower topic) kw || strContainsSub (pyToLower detailed_requirements) kw) then
        if pyToLower complexity = "medium" then 1 else 2
      else 0
    else 0
  let analysts := if include_analysis then max 1 (page_count / 20) else 0
  { complexity_level := complexity
    total_agents_needed := data_collectors + api_researchers + analysts + 1
    data_collectors := data_collectors
    api_researchers := api_researchers
    analysts := analysts
    estimated_sources_per_collector := sources_per_collector
    estimated_apis_per_researcher := if api_researchers > 0 then 2 else 0
    agent_allocations :=
      (if data_collectors > 0 then [("data_collector", data_collectors)] else []) ++
      (if api_researchers > 0 then [("api_researcher", api_researchers)] else []) ++
      (if analysts > 0 then [("analyst", analysts)] else []) ++
      [("straight_through_llm", 1)] }

/-! ## Cost Calculator (`CostCalculatorAgent._calculate_cost`,
cost_calculator.py:188-213)

Python floats are modelled by exact rationals; `round(x, n)` is Python 3
round-half-to-even at `n` decimal digits. -/

/-- Round to the nearest integer, ties to even (Python `round`). -/
def bankersRound (q : ℚ) : ℤ :=
  if q - ⌊q⌋ < 1 / 2 then ⌊q⌋
  else if 1 / 2 < q - ⌊q⌋ then ⌊q⌋ + 1
  else if 2 ∣ ⌊q⌋ then ⌊q⌋ else ⌊q⌋ + 1

def round2 (q : ℚ) : ℚ := (bankersRound (q * 100) : ℚ) / 100

def round4 (q : ℚ) : ℚ := (bankersRound (q * 10000) : ℚ) / 10000

/-- `PRICING` (cost_calculator.py:33-36): $0.075 / $0.30 per 1M tokens. -/
def pricingInputPer1M : ℚ := 75 / 1000
def pricingOutputPer1M : ℚ := 3 / 10

def inputCostRaw (input_tokens : ℕ) : ℚ :=
  (input_tokens : ℚ) / 1000000 * pricingInputPer1M

def outputCostRaw (output_tokens : ℕ) : ℚ :=
  (output_tokens : ℚ) / 1000000 * pricingOutputPer1M

/-- The `total_cost` local of `_calculate_cost`, before rounding. -/
def totalCostRaw (input_tokens output_tokens : ℕ) : ℚ :=
  inputCostRaw input_tokens + outputCostRaw output_tokens

structure CostEstimate where
  input_cost_usd : ℚ
  output_cost_usd : ℚ
  total_cost_usd : ℚ
  min_cost_usd : ℚ
  max_cost_usd : ℚ
  deriving DecidableEq, Repr

/-- `_calculate_cost` (cost_calculator.py:188-213): min/max are the ±20%
confidence range around the unrounded total. -/
def calculate_cost (input_tokens output_tokens : ℕ) : CostEstimate :=
  { input_cost_usd := round4 (inputCostRaw input_tokens)
    output_cost_usd := round4 (outputCostRaw output_tokens)
    total_cost_usd := round2 (totalCostRaw input_tokens output_tokens)
    min_cost_usd := round2 (totalCostRaw input_tokens output_tokens * (8 / 10))
    max_cost_usd := round2 (totalCostRaw input_tokens output_tokens * (12 / 10)) }

/-! ## Task Planner (`TaskPlanner`, planner.py:42-269)

`create_plan` calls the LLM and parses its free-text response.  The
response is abstracted by where, if anywhere, parsing fails:
`re.search(r'\x7b.*\x7d', ...)` finding nothing, `json.loads` raising, or
a non-dict entry in the `subtasks` array making `.get` raise mid-loop
(`_parse_plan_response` catches all of these and returns whatever subtasks
were accumulated).  `GenerationOutcome.raises` is the LLM invocation
itself raising, the only way `create_plan`'s own `except` — and hence
`_create_fallback_plan` — is reached.  `plan_id`/`created_at` (wall-clock
timestamps) and the pydantic metadata fields are omitted. -/

structure SubTask where
  task_id : String
  agent_type : String
  description : String
  dependencies : List String
  priority : Nat
  deriving DecidableEq, Repr

structure ResearchPlan where
  topic : String
  subtasks : List SubTask
  deriving DecidableEq, Repr

/-- One JSON entry of the `subtasks` array: the fields a dict entry may or
may not carry (absent fields take the defaults of planner.py:160-168). -/
structure TaskData where
  task_id : Option String := none
  agent_type : Option String := none
  description : Option String := none
  dependencies : Option (List String) := none
  priority : Option Nat := none
  deriving DecidableEq, Repr

inductive TaskEntry
  | malformed
  | entry (t : TaskData)
  deriving DecidableEq, Repr

inductive PlanResponse
  | noJson
  | badJson
  | json (subtasks : List TaskEntry)
  deriving DecidableEq, Repr

inductive GenerationOutcome
  | raises
  | returns (r : PlanResponse)
  deriving DecidableEq, Repr

def mkSubTask (i : Nat) (t : TaskData) : SubTask :=
  { task_id := t.task_id.getD ("task_" ++ toString (i + 1))
    agent_type := t.agent_type.getD "data_collector"
    description := t.description.getD ""
    dependencies := t.dependencies.getD []
    priority := t.priority.getD (i + 1) }

/-- The enumerate-loop of `_parse_plan_response`: a malformed entry raises,
the exception is caught by the function's own handler, and the subtasks
accumulated so far are returned. -/
def parseTaskEntries (i : Nat) : List TaskEntry → List SubTask
  | [] => []
  | TaskEntry.malformed :: _ => []
  | TaskEntry.entry t :: rest => mkSubTask i t :: parseTaskEntries (i + 1) rest

/-- `_parse_plan_response` (planner.py:139-174): ALL parse failures are
swallowed and yield the (possibly empty) accumulated list — never an
exception. -/
def parse_plan_response : PlanResponse → List SubTask
  | PlanResponse.noJson => []
  | PlanResponse.badJson => []
  | PlanResponse.json entries => parseTaskEntries 0 entries

/-- `_create_fallback_plan` (planner.py:176-216). -/
def create_fallback_plan (user_request : String) : ResearchPlan :=
  { topic := pyTake user_request 100
    subtasks :=
      [ { task_id := "task_1"
          agent_type := "data_collector"
          description := "Collect data for: " ++ pyTake user_request 100
          dependencies := []
          priority := 1 },
        { task_id := "task_2"
          agent_type := "analyst"
          description := "Analyze collected data and identify trends"
          dependencies := ["task_1"]
          priority := 2 },
        { task_id := "task_3"
          agent_type := "writer"
          description := "Write comprehensive research report"
          dependencies := ["task_1", "task_2"]
          priority := 3 } ] }

/-- `create_plan` (planner.py:91-137): the fallback is produced only when
the generation step raises; a returned-but-unparseable response flows
through `_parse_plan_response` into an ordinary plan. -/
def create_plan (gen : GenerationOutcome) (user_request : String) : ResearchPlan :=
  match gen with
  | GenerationOutcome.raises => create_fallback_plan user_request
  | GenerationOutcome.returns r =>
    { topic := pyTake user_request 100
      subtasks := parse_plan_response r }

/-! ## Concrete environments used in witnesses and counterexamples -/

/-- Every agent succeeds, every optional role staffed, explicit API
requests present. -/
def envAllOk : Env :=
  { costRaises := false, leadRaises := false, synthRaises := false
    dcRaises := false, apiRaises := false, analystRaises := false
    llmRaises := false, writerRaises := false
    dcStaffed := true, apiStaffed := true, analystStaffed := true
    apiRequestsEmpty := false }

/-- The lead researcher's task raises; everything else would succeed. -/
def envLeadFails : Env := { envAllOk with leadRaises := true }

/-- The data collector's task raises; only the collector and the fallback
role are staffed, no API requests. -/
def envDCFails : Env :=
  { envAllOk with
    dcRaises := true
    apiStaffed := false
    analystStaffed := false
    apiRequestsEmpty := true }

/-- The synthesizer raises (so no report structure ever exists); only the
collector and the fallback role are staffed. -/
def envSynthFails : Env :=
  { envAllOk with
    synthRaises := true
    apiStaffed := false
    analystStaffed := false
    apiRequestsEmpty := true }

/-- Environment family: the collector's task raises, the planning-phase
nodes and the remaining agents succeed, the collector is staffed;
everything else varies. -/
def envCollectorFails (writerRaises apiStaffed analystStaffed apiRequestsEmpty : Bool) : Env :=
  { costRaises := false
    leadRaises := false
    synthRaises := false
    dcRaises := true
    apiRaises := false
    analystRaises := false
    llmRaises := false
    writerRaises := writerRaises
    dcStaffed := true
    apiStaffed := apiStaffed
    analystStaffed := analystStaffed
    apiRequestsEmpty := apiRequestsEmpty }

/-- Environment family: the lead researcher succeeds, everything else
varies. -/
def envLeadOk (cR sR dR aR anR lR wR dS aS anS aE : Bool) : Env :=
  { costRaises := cR
    leadRaises := false
    synthRaises := sR
    dcRaises := dR
    apiRaises := aR
    analystRaises := anR
    llmRaises := lR
    writerRaises := wR
    dcStaffed := dS
    apiStaffed := aS
    analystStaffed := anS
    apiRequestsEmpty := aE }

/-- Environment family: the lead researcher's task raises, everything else
varies. -/
def envLeadFailsGen (cR sR dR aR anR lR wR dS aS anS aE : Bool) : Env :=
  { costRaises := cR
    leadRaises := true
    synthRaises := sR
    dcRaises := dR
    apiRaises := aR
    analystRaises := anR
    llmRaises := lR
    writerRaises := wR
    dcStaffed := dS
    apiStaffed := aS
    analystStaffed := anS
    apiRequestsEmpty := aE }

/-- An update whose three accumulating-list fields are all present. -/
def withListFields (u : Update) (le : List String) (lc : List Unit) (lt : List String) : Update :=
  { u with errors := some le, citations := some lc, completed_tasks := some lt }

/-- A stored session record already carrying one error, one completed task
and one citation. -/
def sampleStoredState : WState :=
  { initialState with
    errors := ["data_collector"]
    completed_tasks := ["web_data_collection"]
    citations := [()] }

/-- A later partial update carrying one more entry for each accumulating
list. -/
def sampleUpdate : Update :=
  { errors := some ["writer"]
    completed_tasks := some ["report_writing"]
    citations := some [()] }

/-! ## Helper lemmas -/

theorem dictGet?_insert_self {α : Type} (m : List (String × α)) (k : String) (v : α) :
    dictGet? (dictInsert m k v) k = some v := by
  induction m with
  | nil => simp [dictInsert, dictGet?]
  | cons hd tl ih =>
    by_cases h : hd.1 = k
    · simp [dictInsert, dictGet?, h]
    · simp [dictInsert, dictGet?, h, ih]

theorem dictGet?_insert_ne {α : Type} (m : List (String × α)) (k k' : String) (v : α)
    (h : k' ≠ k) : dictGet? (dictInsert m k v) k' = dictGet? m k' := by
  induction m with
  | nil =>
    simp only [dictInsert, dictGet?]
    rw [if_neg (fun hh : k = k' => h hh.symm)]
  | cons hd tl ih =>
    by_cases hk : hd.1 = k
    · have hne : ¬hd.1 = k' := fun hh => h (hk ▸ hh.symm)
      simp only [dictInsert, if_pos hk, dictGet?, if_neg hne]
    · simp only [dictInsert, if_neg hk, dictGet?]
      by_cases hk' : hd.1 = k'
      · simp [hk']
      · simp [hk', ih]

theorem mem_dictKeys_insert {α : Type} (m : List (String × α)) (k a : String) (v : α) :
    a ∈ dictKeys (dictInsert m k v) ↔ a ∈ dictKeys m ∨ a = k := by
  induction m with
  | nil => simp [dictInsert, dictKeys]
  | cons hd tl ih =>
    simp only [dictKeys] at ih ⊢
    by_cases h : hd.1 = k
    · subst h
      have hins : dictInsert (hd :: tl) hd.1 v = (hd.1, v) :: tl := by
        simp [dictInsert]
      rw [hins]
      simp only [List.map_cons, List.mem_cons]
      tauto
    · simp only [dictInsert, if_neg h, List.map_cons, List.mem_cons]
      rw [ih]
      tauto

theorem dictInsert_of_get_eq {α : Type} (m : List (String × α)) (k : String) (v : α)
    (h : dictGet? m k = some v) : dictInsert m k v = m := by
  induction m with
  | nil => simp [dictGet?] at h
  | cons hd tl ih =>
    by_cases hk : hd.1 = k
    · simp only [dictGet?, if_pos hk] at h
      injection h with h
      subst h
      simp only [dictInsert, if_pos hk]
    · simp only [dictGet?, if_neg hk] at h
      simp [dictInsert, hk, ih h]

/-- With duplicate-free keys (always true of a Python dict), every pair in
the list is recovered by lookup. -/
theorem dictGet?_of_mem {α : Type} (m : List (String × α))
    (hnd : (dictKeys m).Nodup) (k : String) (v : α) (h : (k, v) ∈ m) :
    dictGet? m k = some v := by
  induction m with
  | nil => simp at h
  | cons hd tl ih =>
    simp only [dictKeys, List.map_cons, List.nodup_cons] at hnd
    rcases List.mem_cons.mp h with h | h
    · subst h
      simp [dictGet?]
    · have hne : hd.1 ≠ k := by
        intro he
        exact hnd.1 (he ▸ (List.mem_map.mpr ⟨(k, v), h, rfl⟩))
      simp only [dictGet?, if_neg hne]
      exact ih hnd.2 h

theorem dictUpdate_self {α : Type} (m : List (String × α))
    (hnd : (dictKeys m).Nodup) : dictUpdate m m = m := by
  have key : ∀ (l acc : List (String × α)),
      (∀ p ∈ l, dictGet? acc p.1 = some p.2) →
      l.foldl (fun acc kv => dictInsert acc kv.1 kv.2) acc = acc := by
    intro l
    induction l with
    | nil => intro acc _; rfl
    | cons hd tl ih =>
      intro acc hmem
      have h1 : dictInsert acc hd.1 hd.2 = acc :=
        dictInsert_of_get_eq _ _ _ (hmem hd (List.mem_cons_self _ _))
      simp only [List.foldl_cons, h1]
      exact ih acc (fun p hp => hmem p (List.mem_cons_of_mem _ hp))
  exact key m m (fun p hp => dictGet?_of_mem m hnd p.1 p.2 hp)

theorem mem_dictKeys_of_get? {α : Type} (m : List (String × α)) (k : String) (v : α)
    (h : dictGet? m k = some v) : k ∈ dictKeys m := by
  induction m with
  | nil => simp [dictGet?] at h
  | cons hd tl ih =>
    by_cases hk : hd.1 = k
    · simp [dictKeys, hk]
    · simp only [dictGet?, if_neg hk] at h
      simp only [dictKeys, List.map_cons, List.mem_cons]
      exact Or.inr (ih h)

/-- Lookup in a merged dict: the right operand wins per key, falling back to
the left (right operand assumed duplicate-free, as every Python dict is). -/
theorem dictGet?_dictUpdate {α : Type} (l r : List (String × α))
    (hnd : (dictKeys r).Nodup) (k : String) :
    dictGet? (dictUpdate l r) k = (dictGet? r k).orElse (fun _ => dictGet? l k) := by
  induction r generalizing l with
  | nil => simp [dictUpdate, dictGet?, Option.orElse]
  | cons hd tl ih =>
    simp only [dictKeys, List.map_cons, List.nodup_cons] at hnd
    have hstep : dictUpdate l (hd :: tl) = dictUpdate (dictInsert l hd.1 hd.2) tl := rfl
    rw [hstep, ih _ hnd.2]
    by_cases hk : hd.1 = k
    · subst hk
      have hr : dictGet? tl hd.1 = none := by
        cases hget : dictGet? tl hd.1 with
        | none => rfl
        | some v => exact absurd (mem_dictKeys_of_get? tl hd.1 v hget) hnd.1
      rw [hr, dictGet?_insert_self]
      simp [dictGet?]
    · rw [dictGet?_insert_ne _ _ _ _ (fun hh => hk hh.symm)]
      simp only [dictGet?, if_neg hk]

/-- Key set of a merged dict is the union of the key sets. -/
theorem mem_dictKeys_dictUpdate {α : Type} (l r : List (String × α)) (k : String) :
    k ∈ dictKeys (dictUpdate l r) ↔ k ∈ dictKeys l ∨ k ∈ dictKeys r := by
  induction r generalizing l with
  | nil => simp [dictUpdate, dictKeys]
  | cons hd tl ih =>
    have hstep : dictUpdate l (hd :: tl) = dictUpdate (dictInsert l hd.1 hd.2) tl := rfl
    rw [hstep, ih]
    rw [mem_dictKeys_insert]
    simp only [dictKeys, List.map_cons, List.mem_cons]
    tauto


theorem reaches_execN (env : Env) : ∀ n, Reaches env (execN env n)
  | 0 => Reaches.init
  | n + 1 => Reaches.next (reaches_execN env n)

theorem applyUpdate_empty (s : WState) : applyUpdate s {} = s := rfl

theorem step_of_aborted (env : Env) (s : WState) :
    step env (Node.aborted, s) = (Node.aborted, s) := rfl

theorem execN_aborted_stays (env : Env) (n : Nat)
    (h : (execN env n).1 = Node.aborted) :
    ∀ m, n ≤ m → (execN env m).1 = Node.aborted := by
  have key : ∀ k, (execN env (n + k)).1 = Node.aborted := by
    intro k
    induction k with
    | zero => exact h
    | succ k ih =>
      have hx : execN env (n + k) = (Node.aborted, (execN env (n + k)).2) := by
        rw [← ih]
      show (step env (execN env (n + k))).1 = Node.aborted
      rw [hx]
      rfl
  intro m hm
  have hnm : n + (m - n) = m := by omega
  rw [← hnm]
  exact key (m - n)

set_option maxHeartbeats 1600000 in
theorem leadFail_aborts (cR sR dR aR anR lR wR dS aS anS aE : Bool) :
    (execN (envLeadFailsGen cR sR dR aR anR lR wR dS aS anS aE) 4).1 = Node.aborted ∧
    (execN (envLeadFailsGen cR sR dR aR anR lR wR dS aS anS aE) 4).2.required_agents = none := by
  revert cR sR dR aR anR lR wR dS aS anS aE
  decide

theorem floor_le_bankersRound (q : ℚ) : ⌊q⌋ ≤ bankersRound q := by
  unfold bankersRound
  split_ifs <;> omega

theorem bankersRound_le_floor_add_one (q : ℚ) : bankersRound q ≤ ⌊q⌋ + 1 := by
  unfold bankersRound
  split_ifs <;> omega

theorem bankersRound_mono {q r : ℚ} (h : q ≤ r) : bankersRound q ≤ bankersRound r := by
  have hf : ⌊q⌋ ≤ ⌊r⌋ := Int.floor_le_floor h
  rcases eq_or_lt_of_le hf with he | hl
  · have hq : (⌊q⌋ : ℚ) ≤ q := Int.floor_le q
    have hr : (⌊r⌋ : ℚ) ≤ r := Int.floor_le r
    have h2 : q - (⌊q⌋ : ℚ) ≤ r - (⌊q⌋ : ℚ) := by linarith
    unfold bankersRound
    rw [← he]
    split_ifs <;> first | omega | linarith
  · have h1 := bankersRound_le_floor_add_one q
    have h2 := floor_le_bankersRound r
    omega

theorem round2_mono {q r : ℚ} (h : q ≤ r) : round2 q ≤ round2 r := by
  unfold round2
  have hb : bankersRound (q * 100) ≤ bankersRound (r * 100) :=
    bankersRound_mono (by linarith)
  have hc : ((bankersRound (q * 100) : ℤ) : ℚ) ≤ ((bankersRound (r * 100) : ℤ) : ℚ) := by
    exact_mod_cast hb
  linarith

theorem totalCostRaw_nonneg (it ot : ℕ) : 0 ≤ totalCostRaw it ot := by
  unfold totalCostRaw inputCostRaw outputCostRaw pricingInputPer1M pricingOutputPer1M
  positivity

/-- Taking the `all_complete` exit of the completion gate means every
required role's flag reads `true`. -/
theorem routeCC_all_complete_flags {s : WState}
    (h : routeAfterCompletionCheck s = some RouteCC.all_complete) :
    ∀ a ∈ s.required_agents.getD [],
      dictGetD (s.agent_completion_status.getD []) a false = true := by
  intro a ha
  rcases hreq : s.required_agents with _ | req
  · rw [hreq] at ha
    simp at ha
  · rcases hmap : s.agent_completion_status with _ | m
    · rcases req with _ | ⟨x, xs⟩
      · rw [hreq] at ha
        simp at ha
      · have hnone : routeAfterCompletionCheck s = none := by
          unfold routeAfterCompletionCheck
          rw [hreq, hmap]
        rw [hnone] at h
        simp at h
    · have hval : routeAfterCompletionCheck s =
          some (if req.all (fun a => dictGetD m a false) then RouteCC.all_complete
                else RouteCC.incomplete) := by
        unfold routeAfterCompletionCheck
        rw [hreq, hmap]
      rw [hval] at h
      rw [hreq] at ha
      simp only [Option.getD_some] at ha
      simp only [Option.getD_some]
      rcases hcond : req.all (fun a => dictGetD m a false) with _ | _
      · rw [hcond] at h
        simp at h
      · exact List.all_eq_true.mp hcond a ha

/-! ## Claim theorems -/

/-- Claim C1: for every routing path through the workflow graph, the writer
(final-synthesis) node is only reached via the completion-check route
returning `all_complete`; consequently the writer never executes while
`agent_completion_status` maps any role listed in `required_agents` to
false — at every reachable writer configuration, every required role's
flag is `true`. -/
theorem writer_only_after_all_complete (env : Env) (c : Node × WState)
    (hre : Reaches env c) (hw : c.1 = Node.writer) :
    routeAfterCompletionCheck c.2 = some RouteCC.all_complete ∧
    ∀ a ∈ c.2.required_agents.getD [],
      dictGetD (c.2.agent_completion_status.getD []) a false = true := by
  induction hre with
  | init => exact absurd hw (by decide)
  | @next c0 hprev ih =>
    clear ih hprev
    obtain ⟨n0, s0⟩ := c0
    cases n0 with
    | cost_calculator => simp [step, routeAfterCostEstimate] at hw
    | lead_researcher => simp [step] at hw
    | synthesizer => simp [step] at hw
    | data_collector =>
      rcases hr : routeAfterDataCollector (applyUpdate s0 (dataCollectorNode env s0)) with _ | r
      · simp [step, hr] at hw
      · rcases r <;> simp [step, hr] at hw
    | api_researcher =>
      rcases hr : routeAfterAPIResearcher (applyUpdate s0 (apiResearcherNode env s0)) with _ | r
      · simp [step, hr] at hw
      · rcases r <;> simp [step, hr] at hw
    | analyst =>
      rcases hr : routeAfterAnalyst (applyUpdate s0 (analystNode env s0)) with _ | r
      · simp [step, hr] at hw
      · rcases r <;> simp [step, hr] at hw
    | straight_through_llm =>
      rcases hr : straightThroughLLMNode env s0 with _ | u
      · simp [step, hr] at hw
      · simp [step, hr] at hw
    | check_completion =>
      rcases hn : checkCompletionNode s0 with _ | u
      · simp [step, hn] at hw
      · rcases hr : routeAfterCompletionCheck (applyUpdate s0 u) with _ | r
        · simp [step, hn, hr] at hw
        · cases r with
          | incomplete => simp [step, hn, hr] at hw
          | all_complete =>
            have hc : step env (Node.check_completion, s0) =
                (Node.writer, applyUpdate s0 u) := by
              simp [step, hn, hr]
            rw [hc]
            exact ⟨hr, routeCC_all_complete_flags hr⟩
    | writer =>
      rcases hr : writerNode env s0 with _ | u
      · simp [step, hr] at hw
      · simp [step, hr] at hw
    | terminal => simp [step] at hw
    | aborted => simp [step] at hw

/-- Witness for C1: in a run where everything succeeds and every optional
role is staffed, the writer is reached at superstep 8 with the gate
satisfied. -/
theorem writer_only_after_all_complete_witness :
    routeAfterCompletionCheck (execN envAllOk 8).2 = some RouteCC.all_complete ∧
    dictGetD ((execN envAllOk 8).2.agent_completion_status.getD [])
      "straight_through_llm" false = true := by
  have h := writer_only_after_all_complete envAllOk (execN envAllOk 8)
    (reaches_execN envAllOk 8) (by decide)
  exact ⟨h.1, h.2 "straight_through_llm" (by decide)⟩

/-- Claim C2: evaluating `create_plan` at a malformed/unparseable
generation output.  Parse failures are swallowed inside
`_parse_plan_response`, so `create_plan` returns a plan with ZERO subtasks
on such input — the 3-task collect→analyze→write fallback (whose shape the
third conjunct confirms) is only produced when the generation step itself
raises, contradicting `_create_fallback_plan`'s own docstring "Create a
basic fallback plan if LLM parsing fails". -/
theorem create_plan_parse_failure_no_fallback :
    (create_plan (GenerationOutcome.returns PlanResponse.noJson)
      "Research the EV battery market").subtasks = [] ∧
    (create_plan (GenerationOutcome.returns PlanResponse.badJson)
      "Research the EV battery market").subtasks = [] ∧
    (create_plan GenerationOutcome.raises "Research the EV battery market").subtasks.map
        (fun t => (t.task_id, t.agent_type, t.dependencies)) =
      [("task_1", "data_collector", []), ("task_2", "analyst", ["task_1"]),
       ("task_3", "writer", ["task_1", "task_2"])] ∧
    (create_plan GenerationOutcome.raises "Research the EV battery market").subtasks.length = 3 := by
  decide

/-- Claim C3 counterexample: with the data collector's task raising and
every other node succeeding, the error list has exactly one
`data_collector` entry and no writer output is produced, but the final
status is `"llm_content_complete"` (written by the later fallback-content
node under the `take_last_status` reducer), NOT `"error"` as claimed. -/
theorem collector_failure_counterexample :
    (runFinal envDCFails).2.errors = ["data_collector"] ∧
    (runFinal envDCFails).2.report_content = none ∧
    (runFinal envDCFails).2.report_path = none ∧
    (runFinal envDCFails).2.status = "llm_content_complete" ∧
    ¬(runFinal envDCFails).2.status = "error" := by
  decide

/-- Claim C3 amended: in every run where the planning nodes succeed, the
collector is staffed but its task raises, and the other agents succeed,
the final run state's error list contains exactly one entry for
`data_collector` and no writer output exists (the completion gate routes
to END, not to the writer) — but the final status is the last successful
node's `"llm_content_complete"`, not `"error"`. -/
theorem collector_failure_amended (wR aS anS aE : Bool) :
    (runFinal (envCollectorFails wR aS anS aE)).2.errors = ["data_collector"] ∧
    (runFinal (envCollectorFails wR aS anS aE)).2.report_content = none ∧
    (runFinal (envCollectorFails wR aS anS aE)).2.report_path = none ∧
    (runFinal (envCollectorFails wR aS anS aE)).2.status = "llm_content_complete" ∧
    (runFinal (envCollectorFails wR aS anS aE)).1 = Node.terminal := by
  revert wR aS anS aE
  decide

/-- Claim C4 counterexample: `StateManager.update_state` applies a plain
`dict.update`, so an update carrying list fields REPLACES the stored lists
(`errors` becomes `["writer"]`, losing `"data_collector"`), whereas the
graph's own reducers (`applyUpdate`) would append. -/
theorem registry_update_overwrites_counterexample :
    StateManager.update_state [("s1", sampleStoredState)] "s1" sampleUpdate =
      [("s1", pyStateUpdate sampleStoredState sampleUpdate)] ∧
    (pyStateUpdate sampleStoredState sampleUpdate).errors = ["writer"] ∧
    (applyUpdate sampleStoredState sampleUpdate).errors = ["data_collector", "writer"] ∧
    ¬(pyStateUpdate sampleStoredState sampleUpdate).errors =
      (applyUpdate sampleStoredState sampleUpdate).errors ∧
    (pyStateUpdate sampleStoredState sampleUpdate).citations = [()] ∧
    (applyUpdate sampleStoredState sampleUpdate).citations = [(), ()] ∧
    (pyStateUpdate sampleStoredState sampleUpdate).completed_tasks = ["report_writing"] := by
  decide

/-- Claim C4 amended: `update_state` does NOT apply the graph's field-level
reducers; it replaces each supplied field wholesale (Python `dict.update`).
For every stored record and every update supplying the accumulating list
fields, the stored lists are overwritten with exactly the supplied lists,
while the graph's reducer (`applyUpdate`) would have appended them. -/
theorem registry_update_overwrites_amended (states : List (String × WState)) (sid : String)
    (s : WState) (u : Update) (le : List String) (lc : List Unit) (lt : List String) :
    StateManager.update_state (dictInsert states sid s) sid (withListFields u le lc lt) =
      dictInsert (dictInsert states sid s) sid (pyStateUpdate s (withListFields u le lc lt)) ∧
    (pyStateUpdate s (withListFields u le lc lt)).errors = le ∧
    (pyStateUpdate s (withListFields u le lc lt)).citations = lc ∧
    (pyStateUpdate s (withListFields u le lc lt)).completed_tasks = lt ∧
    (applyUpdate s (withListFields u le lc lt)).errors = s.errors ++ le ∧
    (applyUpdate s (withListFields u le lc lt)).citations = s.citations ++ lc ∧
    (applyUpdate s (withListFields u le lc lt)).completed_tasks = s.completed_tasks ++ lt := by
  refine ⟨?_, by simp [pyStateUpdate, withListFields], by simp [pyStateUpdate, withListFields],
    by simp [pyStateUpdate, withListFields], by simp [applyUpdate, withListFields],
    by simp [applyUpdate, withListFields], by simp [applyUpdate, withListFields]⟩
  unfold StateManager.update_state
  rw [dictGet?_insert_self]

/-- Claim C5 counterexample: when another role (the synthesizer) fails, the
run still reaches the normal terminal and the fallback-content role's
completion flag is true, but its payload `llm_generated_content` is EMPTY:
the missing report structure makes the fallback node itself raise
internally, and its handler marks it complete without any payload. -/
theorem fallback_payload_counterexample :
    (runFinal envSynthFails).1 = Node.terminal ∧
    dictGetD ((runFinal envSynthFails).2.agent_completion_status.getD [])
      "straight_through_llm" false = true ∧
    (runFinal envSynthFails).2.llm_generated_content = none ∧
    (runFinal envSynthFails).2.status = "completed" := by
  decide

set_option maxHeartbeats 4000000 in
/-- Claim C5 amended: provided the lead-researcher node succeeds (so the
fallback role is registered and the completion map exists), every run
reaches the normal terminal with the fallback role's completion flag true,
regardless of which other roles fail; the payload `llm_generated_content`
is additionally non-empty provided the synthesizer succeeded (a report
structure exists) and the fallback node's own LLM call succeeded. -/
theorem fallback_flag_and_payload :
    (∀ cR sR dR aR anR lR wR dS aS anS aE : Bool,
      (runFinal (envLeadOk cR sR dR aR anR lR wR dS aS anS aE)).1 = Node.terminal ∧
      dictGetD ((runFinal (envLeadOk cR sR dR aR anR lR wR dS aS anS aE)).2.agent_completion_status.getD [])
        "straight_through_llm" false = true) ∧
    (∀ cR dR aR anR wR dS aS anS aE : Bool,
      (runFinal (envLeadOk cR false dR aR anR false wR dS aS anS aE)).2.llm_generated_content
        = some ()) := by
  constructor
  · decide
  · decide

/-- Claim C6: Decision Engine on scenario A — topic "EV battery market",
20 pages, 10 sources, medium complexity, analysis on: 4 data collectors
(3 sources per collector), 1 analyst, 1 API researcher, the always-staffed
fallback role with count 1, and 7 total agents. -/
theorem scenarioA_staffing :
    analyze_requirements "EV battery market" "" 20 10 "medium" true true =
      { complexity_level := "medium"
        total_agents_needed := 7
        data_collectors := 4
        api_researchers := 1
        analysts := 1
        estimated_sources_per_collector := 3
        estimated_apis_per_researcher := 2
        agent_allocations :=
          [("data_collector", 4), ("api_researcher", 1), ("analyst", 1),
           ("straight_through_llm", 1)] } ∧
    dictGet? (analyze_requirements "EV battery market" "" 20 10 "medium" true true).agent_allocations
      "straight_through_llm" = some 1 := by
  decide

/-- Claim C7: `merge_completion_status` is idempotent on identical updates
(for any duplicate-free map `m`, `merge (some m) (some m) = some m`, and
`merge none none = none`), and its result is the key-wise union of both
operands with the right operand winning per key. -/
theorem merge_completion_idempotent_and_right_biased :
    merge_completion_status none none = none ∧
    (∀ m : CMap, (dictKeys m).Nodup →
      merge_completion_status (some m) (some m) = some m) ∧
    (∀ l r : CMap, merge_completion_status (some l) (some r) = some (dictUpdate l r)) ∧
    (∀ l r : CMap, (dictKeys r).Nodup → ∀ k : String,
      dictGet? (dictUpdate l r) k = (dictGet? r k).orElse (fun _ => dictGet? l k)) ∧
    (∀ l r : CMap, ∀ k : String,
      k ∈ dictKeys (dictUpdate l r) ↔ k ∈ dictKeys l ∨ k ∈ dictKeys r) := by
  refine ⟨rfl, ?_, fun l r => rfl, dictGet?_dictUpdate, mem_dictKeys_dictUpdate⟩
  intro m h
  show some (dictUpdate m m) = some m
  rw [dictUpdate_self m h]

/-- Witness for C7: `merge({a:true}, {a:true}) = {a:true}`, and on the
overlapping key of `{a:true}` and `{a:false, b:true}` the right operand
wins. -/
theorem merge_completion_idempotent_witness :
    merge_completion_status (some [("a", true)]) (some [("a", true)]) = some [("a", true)] ∧
    dictGet? (dictUpdate [("a", true)] [("a", false), ("b", true)]) "a" = some false := by
  refine ⟨merge_completion_idempotent_and_right_biased.2.1 [("a", true)] (by decide), ?_⟩
  rw [merge_completion_idempotent_and_right_biased.2.2.2.1 [("a", true)]
    [("a", false), ("b", true)] (by decide) "a"]
  decide

/-- Claim C8: the computed data-collector count is monotone non-decreasing
in `source_count`, all other inputs held fixed. -/
theorem collectors_monotone (topic req : String) (pc : Nat) (complexity : String)
    (ia iv : Bool) (s1 s2 : Nat) (h : s1 ≤ s2) :
    (analyze_requirements topic req pc s1 complexity ia iv).data_collectors ≤
    (analyze_requirements topic req pc s2 complexity ia iv).data_collectors := by
  simp only [analyze_requirements]
  exact max_le_max (le_refl 1)
    (Nat.div_le_div_right (Nat.sub_le_sub_right (Nat.add_le_add_right h _) 1))

/-- Witness for C8 at `source_count` 3 ≤ 10. -/
theorem collectors_monotone_witness :
    (analyze_requirements "EV battery market" "" 20 3 "medium" true true).data_collectors ≤
    (analyze_requirements "EV battery market" "" 20 10 "medium" true true).data_collectors :=
  collectors_monotone "EV battery market" "" 20 "medium" true true 3 10 (by decide)

/-- Claim C9: for every token estimate, the cost estimate satisfies
`min_cost_usd ≤ total_cost_usd ≤ max_cost_usd`, and the min/max fields are
exactly the ±20% band around the unrounded total (`total*0.8`/`total*1.2`
before rounding). -/
theorem cost_estimate_bounds (it ot : ℕ) :
    (calculate_cost it ot).min_cost_usd ≤ (calculate_cost it ot).total_cost_usd ∧
    (calculate_cost it ot).total_cost_usd ≤ (calculate_cost it ot).max_cost_usd ∧
    (calculate_cost it ot).min_cost_usd = round2 (totalCostRaw it ot * (8 / 10)) ∧
    (calculate_cost it ot).max_cost_usd = round2 (totalCostRaw it ot * (12 / 10)) := by
  have h0 : 0 ≤ totalCostRaw it ot := totalCostRaw_nonneg it ot
  refine ⟨round2_mono (by linarith), round2_mono (by linarith), rfl, rfl⟩

/-- Claim C10 counterexample: when the lead-researcher node fails,
`required_agents` is `None` (the key is present, so `.get`'s `[]` default
never applies), the first routing function after the data collector raises
`TypeError` (modelled by `none`), and the run aborts — the writer is NEVER
reached, contrary to the claimed vacuous `all_complete` route. -/
theorem lead_failure_counterexample :
    ((List.range 13).map (fun k => (execN envLeadFails k).1) =
      [Node.cost_calculator, Node.lead_researcher, Node.synthesizer, Node.data_collector,
       Node.aborted, Node.aborted, Node.aborted, Node.aborted, Node.aborted, Node.aborted,
       Node.aborted, Node.aborted, Node.aborted]) ∧
    Node.writer ∉ (List.range 13).map (fun k => (execN envLeadFails k).1) ∧
    (execN envLeadFails 4).2.required_agents = none ∧
    routeAfterDataCollector (execN envLeadFails 4).2 = none := by
  decide

/-- Claim C10 amended: the completion-check route IS vacuously
`all_complete` (and steps to the writer) whenever `required_agents` is a
present-but-EMPTY list; but a failed lead researcher leaves the field
`None`, not `[]`, so iterating it raises `TypeError` in the routing
functions: the run aborts at superstep 4 with `required_agents` still
unset, and the writer is never executed. -/
theorem completion_gate_on_missing_required_agents :
    (∀ (env : Env) (s : WState),
      routeAfterCompletionCheck { s with required_agents := some [] } =
        some RouteCC.all_complete ∧
      (step env (Node.check_completion,
        { s with required_agents := some [] })).1 = Node.writer) ∧
    (∀ cR sR dR aR anR lR wR dS aS anS aE : Bool,
      (execN (envLeadFailsGen cR sR dR aR anR lR wR dS aS anS aE) 4).1 = Node.aborted ∧
      (execN (envLeadFailsGen cR sR dR aR anR lR wR dS aS anS aE) 4).2.required_agents = none ∧
      ∀ k, ¬(execN (envLeadFailsGen cR sR dR aR anR lR wR dS aS anS aE) k).1 = Node.writer) := by
  constructor
  · intro env s
    obtain ⟨p1, p2, p3, p4, p5, p6, p7, p8, p9, p10, p11, p12, p13, p14, p15, p16, p17,
      p18, p19, p20⟩ := s
    rcases p19 with _ | m <;> exact ⟨rfl, rfl⟩
  · intro cR sR dR aR anR lR wR dS aS anS aE
    obtain ⟨h4, hreq⟩ := leadFail_aborts cR sR dR aR anR lR wR dS aS anS aE
    refine ⟨h4, hreq, fun k => ?_⟩
    rcases Nat.lt_or_ge k 4 with hk | hk
    · interval_cases k
      · exact (by decide : ¬Node.cost_calculator = Node.writer)
      · exact (by decide : ¬Node.lead_researcher = Node.writer)
      · exact (by decide : ¬Node.synthesizer = Node.writer)
      · exact (by decide : ¬Node.data_collector = Node.writer)
    · rw [execN_aborted_stays _ 4 h4 k hk]
      decide

end WestBay
